import Mathlib

/-
  Shallow embedding of the elib-api book upload workflow (Express + Mongoose +
  Cloudinary REST backend).

  The repository snapshot contains several revisions of the book controller:
  * src/src/book/bookController.ts : createBook with a hardcoded author id;
  * src/unnamed/part_000           : createBook reading the middleware-attached
                                     userId (falling back to the same constant),
                                     plus updateBook, listBooks, getsingleBook;
  * src/unnamed/part_001           : an early createBook prototype (single
                                     catch-all returning 501, no cleanup).
  The two full createBook revisions are textually identical except for the
  expression that produces the author field, so they are embedded as one
  worker `createBookAux` parameterised by that expression.

  External collaborators (Cloudinary uploads, the Mongo collection, jwt.verify)
  are modelled as oracle records: one outcome per call site, supplied as input.
  Each workflow returns the HTTP outcome together with an effect record:
  which external calls were made, the document handed to the store, and the
  list of temp-file paths whose deletion was attempted (in order).
-/

namespace Elib

/-- JavaScript truthiness of an optional string value: `undefined`/`null`
(here `none`) and the empty string are falsy, every other string is truthy. -/
def truthy : Option String → Bool
  | none => false
  | some s => !(s == "")

/-- A file stored by multer in the scratch upload directory
(`Express.Multer.File`, restricted to the fields the controllers read). -/
structure UploadedFile where
  filename : String
  mimetype : String
deriving DecidableEq, Repr

/-- The `req.files` map produced by `upload.fields([{name: 'coverImage'}, {name: 'file'}])`:
each field is either absent or an array of files. -/
structure FilesMap where
  coverImage : Option (List UploadedFile)
  file : Option (List UploadedFile)
deriving DecidableEq, Repr

/-- Result object of a `cloudinary.uploader.upload` call: the controllers only
read `secure_url`, which may be absent. -/
structure UploadResult where
  secure_url : Option String
deriving DecidableEq, Repr

/-- Result object of `bookModel.insertOne`: the controller reads
`acknowledged`, `_id` and `insertedId`. -/
structure InsertResult where
  acknowledged : Bool
  _id : Option String
  insertedId : Option String
deriving DecidableEq, Repr

/-- The document handed to `bookModel.insertOne` by `createBook`. -/
structure BookDoc where
  title : String
  author : String
  genre : String
  coverImage : String
  file : String
deriving DecidableEq, Repr

/-- Outcome of a request handler: a JSON success response (`res.status(..).json(..)`,
carrying the id the controllers put in the body) or an error forwarded with
`next(createHttpError(status, msg))`. -/
inductive HttpResult where
  | ok (status : Nat) (id : Option String)
  | err (status : Nat) (msg : String)
deriving DecidableEq, Repr

/-- Oracle for one run of `createBook`: the outcome of each external call the
handler can make, plus an optional unexpected exception (with its internal
detail message) reaching the outer catch-all. -/
structure CreateOracle where
  coverUpload : Except String UploadResult
  bookUpload : Except String UploadResult
  insert : Except String InsertResult
  unexpected : Option String
deriving Repr

/-- Effects of one run of `createBook`: which Cloudinary calls were issued,
the document handed to `insertOne` (if the call was made), and the temp-file
paths whose deletion was attempted, in order. -/
structure CreateEffects where
  coverUploadCalled : Bool
  bookUploadCalled : Bool
  insertedDoc : Option BookDoc
  unlinked : List String
deriving DecidableEq, Repr

/-- Request to `createBook`: body fields, the multer files map, and the
`userId` attached (or not) by the authentication middleware. -/
structure CreateReq where
  title : Option String
  genre : Option String
  files : Option FilesMap
  userId : Option String
deriving DecidableEq, Repr

/-- The resolved scratch path of an uploaded temp file, abbreviating
`path.resolve(dirname, "../../public/data/uploads", filename)`. -/
def uploadPath (fname : String) : String := "public/data/uploads/" ++ fname

/-- Author id constant appearing in both createBook revisions
(hardcoded value in bookController.ts, `??` fallback in part_000). -/
def fallbackAuthorId : String := "693adf9bd0f376cedbc61efd"

/-- Shared body of the two full `createBook` revisions, which differ only in
the expression computing the inserted document's author field (`authorOf`).
Mirrors src/src/book/bookController.ts lines 23-156 and
src/unnamed/part_000 lines 23-155. -/
def createBookAux (authorOf : Option String → String) (req : CreateReq)
    (o : CreateOracle) : HttpResult × CreateEffects :=
  if !(truthy req.title) || !(truthy req.genre) then
    (.err 400 "Missing required fields: title or genre", ⟨false, false, none, []⟩)
  else
    match req.files with
    | none => (.err 400 "Missing uploaded files: coverImage and/or file", ⟨false, false, none, []⟩)
    | some fm =>
      match fm.coverImage, fm.file with
      | none, _ => (.err 400 "Missing uploaded files: coverImage and/or file", ⟨false, false, none, []⟩)
      | some _, none => (.err 400 "Missing uploaded files: coverImage and/or file", ⟨false, false, none, []⟩)
      | some coverArr, some fileArr =>
        match coverArr.head?, fileArr.head? with
        | none, _ => (.err 400 "Uploaded files are invalid", ⟨false, false, none, []⟩)
        | some _, none => (.err 400 "Uploaded files are invalid", ⟨false, false, none, []⟩)
        | some coverFile, some bookFile =>
          let coverFilePath := uploadPath coverFile.filename
          let bookFilePath := uploadPath bookFile.filename
          let cleanup : List String := [coverFilePath, bookFilePath]
          match o.unexpected with
          | some _ =>
            (.err 500 "Unexpected error while uploading the files", ⟨false, false, none, cleanup⟩)
          | none =>
            match o.coverUpload with
            | .error _ =>
              (.err 502 "Failed to upload cover image to Cloudinary", ⟨true, false, none, cleanup⟩)
            | .ok coverRes =>
              match o.bookUpload with
              | .error _ =>
                (.err 502 "Failed to upload book file to Cloudinary", ⟨true, true, none, cleanup⟩)
              | .ok bookRes =>
                if !(truthy coverRes.secure_url) || !(truthy bookRes.secure_url) then
                  (.err 502 "Cloudinary upload did not return a secure URL", ⟨true, true, none, cleanup⟩)
                else
                  let doc : BookDoc :=
                    { title := req.title.getD ""
                      author := authorOf req.userId
                      genre := req.genre.getD ""
                      coverImage := coverRes.secure_url.getD ""
                      file := bookRes.secure_url.getD "" }
                  match o.insert with
                  | .error _ =>
                    (.err 500 "Error while saving book to database", ⟨true, true, some doc, cleanup⟩)
                  | .ok r =>
                    if !r.acknowledged && !(truthy r._id) then
                      (.err 500 "Failed to save book to database", ⟨true, true, some doc, cleanup⟩)
                    else
                      (.ok 201 ((r._id.orElse fun _ => r.insertedId)), ⟨true, true, some doc, cleanup⟩)

/-- The `createBook` revision of src/unnamed/part_000: the author field is
`(req as unknown as { userId?: string }).userId ?? "693adf9bd0f376cedbc61efd"`. -/
def createBook (req : CreateReq) (o : CreateOracle) : HttpResult × CreateEffects :=
  createBookAux (fun uid => uid.getD fallbackAuthorId) req o

/-- The `createBook` revision of src/src/book/bookController.ts: the author
field is the hardcoded string `"693adf9bd0f376cedbc61efd"`. -/
def createBookV1 (req : CreateReq) (o : CreateOracle) : HttpResult × CreateEffects :=
  createBookAux (fun _ => fallbackAuthorId) req o

/-- The validation predicate of `createBook` (both revisions, lines 28-41):
title and genre truthy, `req.files` defined with both field arrays present and
each array non-empty. -/
def createValidated (req : CreateReq) : Bool :=
  truthy req.title && truthy req.genre &&
    (match req.files with
     | none => false
     | some fm =>
       fm.coverImage.isSome && fm.file.isSome &&
         (fm.coverImage.bind List.head?).isSome && (fm.file.bind List.head?).isSome)

/-- Predicate on a `CreateOracle` capturing the upload-failure condition of
the claim: either Cloudinary call throws, or both return but at least one
result lacks a truthy `secure_url`. -/
def uploadFailed (o : CreateOracle) : Bool :=
  match o.coverUpload with
  | .error _ => true
  | .ok coverRes =>
    match o.bookUpload with
    | .error _ => true
    | .ok bookRes => !(truthy coverRes.secure_url) || !(truthy bookRes.secure_url)

/-- The stored author reference of a book document, which across revisions is
either a raw identifier string or a (possibly populated) reference value with
an optional nested `_id`; `ts` stands for the `toString()` rendering of the
value itself. -/
inductive AuthorRef where
  | str (s : String)
  | obj (id : Option String) (ts : String)
deriving DecidableEq, Repr

/-- Normalisation of the stored author reference performed before the
ownership comparison (src/unnamed/part_000 line 195):
`typeof book.author === "string" ? book.author : (book.author?._id ?? book.author)?.toString?.()`.
A nested `_id` is modelled by the string its `toString()` yields. -/
def normalizeAuthor : AuthorRef → String
  | .str s => s
  | .obj (some i) _ => i
  | .obj none ts => ts

/-- A book document as returned by `bookModel.findOne`, restricted to the
fields `updateBook` reads. -/
structure StoredBook where
  title : String
  genre : String
  coverImage : String
  file : String
  author : AuthorRef
deriving DecidableEq, Repr

/-- Result object of `bookModel.findOneAndUpdate`: the controller reads
`_id` and `value?._id`. -/
structure UpdatedDoc where
  _id : Option String
  value_id : Option String
deriving DecidableEq, Repr

/-- Request to `updateBook`: body fields, the `:bookId` route parameter, the
multer files map, and the middleware-attached `userId`. -/
structure UpdateReq where
  title : Option String
  genre : Option String
  bookId : Option String
  files : Option FilesMap
  userId : Option String
deriving DecidableEq, Repr

/-- Oracle for one run of `updateBook`: the outcome of each external call. -/
structure UpdateOracle where
  findOne : Except String (Option StoredBook)
  coverUpload : Except String UploadResult
  bookUpload : Except String UploadResult
  findOneAndUpdate : Except String (Option UpdatedDoc)
deriving Repr

/-- The update payload built at src/unnamed/part_000 lines 265-270. -/
structure UpdatePayload where
  title : String
  genre : String
  coverImage : String
  file : String
deriving DecidableEq, Repr

/-- Effects of one run of `updateBook`: Cloudinary calls issued, the payload
handed to `findOneAndUpdate` (if the call was made), and the temp-file paths
whose deletion was attempted, in order. -/
structure UpdateEffects where
  coverUploadCalled : Bool
  bookUploadCalled : Bool
  updateCalled : Option UpdatePayload
  unlinked : List String
deriving DecidableEq, Repr

/-- Tail of `updateBook` after both upload branches: payload construction
(lines 265-270), the `findOneAndUpdate` call, final cleanup and response
(lines 272-303). `paths` is `uploadedTempPaths` at this point. -/
def updateFinish (req : UpdateReq) (o : UpdateOracle) (book : StoredBook)
    (coverCalled bookCalled : Bool) (coverImageUrl bookFileUrl : String)
    (paths : List String) : HttpResult × UpdateEffects :=
  let payload : UpdatePayload :=
    { title := req.title.getD book.title
      genre := req.genre.getD book.genre
      coverImage := if coverImageUrl != "" then coverImageUrl else book.coverImage
      file := if bookFileUrl != "" then bookFileUrl else book.file }
  match o.findOneAndUpdate with
  | .error _ =>
    (.err 500 "Error while updating book in database", ⟨coverCalled, bookCalled, some payload, paths⟩)
  | .ok none =>
    (.err 500 "Failed to update book", ⟨coverCalled, bookCalled, some payload, paths⟩)
  | .ok (some ud) =>
    let returnedId := (ud._id.orElse fun _ => ud.value_id).getD (req.bookId.getD "")
    (.ok 200 (some returnedId), ⟨coverCalled, bookCalled, some payload, paths⟩)

/-- The optional book-file upload branch of `updateBook`
(src/unnamed/part_000 lines 237-260). -/
def updateBookFileBranch (req : UpdateReq) (o : UpdateOracle) (book : StoredBook)
    (coverCalled : Bool) (coverImageUrl : String) (paths : List String) :
    HttpResult × UpdateEffects :=
  match (req.files.getD ⟨none, none⟩).file.bind List.head? with
  | some bf =>
    let bookFilePath := uploadPath bf.filename
    let paths2 := paths ++ [bookFilePath]
    match o.bookUpload with
    | .error _ => (.err 502 "Failed to upload book file", ⟨coverCalled, true, none, paths2⟩)
    | .ok r =>
      updateFinish req o book coverCalled true coverImageUrl (r.secure_url.getD "") paths2
  | none => updateFinish req o book coverCalled false coverImageUrl "" paths

/-- The `updateBook` handler of src/unnamed/part_000 lines 164-308: parameter
check, fetch, authentication and ownership checks, the optional cover-image
upload branch, then `updateBookFileBranch`. The outer catch-all (lines
304-307) has no reachable throw site among the modelled operations and is not
represented. -/
def updateBook (req : UpdateReq) (o : UpdateOracle) : HttpResult × UpdateEffects :=
  if !(truthy req.bookId) then
    (.err 400 "bookId is required in params", ⟨false, false, none, []⟩)
  else
    match o.findOne with
    | .error _ => (.err 500 "Failed to fetch book from database", ⟨false, false, none, []⟩)
    | .ok none => (.err 404 "Book not found", ⟨false, false, none, []⟩)
    | .ok (some book) =>
      if !(truthy req.userId) then
        (.err 401 "Unauthenticated", ⟨false, false, none, []⟩)
      else if normalizeAuthor book.author != req.userId.getD "" then
        (.err 403 "Unauthorized access", ⟨false, false, none, []⟩)
      else
        match (req.files.getD ⟨none, none⟩).coverImage.bind List.head? with
        | some cf =>
          let coverPath := uploadPath cf.filename
          match o.coverUpload with
          | .error _ => (.err 502 "Failed to upload cover image", ⟨true, false, none, [coverPath]⟩)
          | .ok r =>
            updateBookFileBranch req o book true (r.secure_url.getD "") [coverPath]
        | none => updateBookFileBranch req o book false "" []

/-- Outcome of `getsingleBook`: the fetched book rendered by `res.json`, or a
forwarded http error. -/
inductive FetchResult where
  | found (book : StoredBook)
  | err (status : Nat) (msg : String)
deriving DecidableEq, Repr

/-- The `getsingleBook` handler of src/unnamed/part_000 lines 326-344. -/
def getsingleBook (bookId : Option String)
    (findOne : Except String (Option StoredBook)) : FetchResult :=
  if !(truthy bookId) then .err 401 "Book id is invalid/not found"
  else
    match findOne with
    | .error _ => .err 401 "Error while fetching the book"
    | .ok none => .err 401 "Book does not exist"
    | .ok (some b) => .found b

/-- Worker for `jsSplit`: splits the character list at every occurrence of
`c`, keeping empty segments, exactly as JavaScript's
`String.prototype.split` does for a single-character separator. -/
def splitSpAux (c : Char) : List Char → List Char → List String
  | [], acc => [String.mk acc.reverse]
  | x :: xs, acc =>
    if x = c then String.mk acc.reverse :: splitSpAux c xs []
    else splitSpAux c xs (x :: acc)

/-- JavaScript `s.split(c)` for a one-character separator: every occurrence
of the separator splits, empty segments are kept, `"".split(c) = [""]`. -/
def jsSplit (c : Char) (s : String) : List String := splitSpAux c s.data []

/-- Decoded JWT payload: the middleware only reads `sub`. -/
structure JwtPayload where
  sub : Option String
deriving DecidableEq, Repr

/-- Outcome of the `authenticate` middleware: either `next()` is called with
`userId` attached to the request, or an http error is forwarded and the
downstream handler never runs. -/
inductive AuthResult where
  | proceed (userId : String)
  | authErr (status : Nat) (msg : String)
deriving DecidableEq, Repr

/-- The `authenticate` middleware of src/src/middlewares/authenticate.ts
lines 10-51. `verify` is the `jwt.verify` oracle: per token, the decoded
payload or a thrown error. The outer catch (500) has no throwing operation
left once every modelled failure is handled, and is not represented. -/
def authenticate (header : Option String)
    (verify : String → Except String JwtPayload) : AuthResult :=
  match header with
  | none => .authErr 401 "Authorization token is required"
  | some h =>
    let parts := jsSplit ' ' h
    if parts.length != 2 || parts.getD 0 "" != "Bearer" then
      .authErr 401 "Invalid Authorization header format"
    else
      match verify (parts.getD 1 "") with
      | .error _ => .authErr 401 "Invalid or expired token"
      | .ok p =>
        if !(truthy p.sub) then .authErr 401 "Invalid token payload"
        else .proceed (p.sub.getD "")

/-- Oracle for the prototype createBook of src/unnamed/part_001. -/
structure ProtoOracle where
  coverUpload : Except String UploadResult
  bookUpload : Except String UploadResult
deriving Repr

/-- The early `createBook` prototype of src/unnamed/part_001 lines 10-61:
no validation (a missing file surfaces as a TypeError caught by the single
catch), two uploads, `res.json({})`; every caught exception is mapped to
`createHttpError(501, "Error while uploading the files")` and no temp-file
deletion is ever attempted (second component: paths whose deletion was
attempted, always empty). -/
def createBookProto (files : Option FilesMap) (o : ProtoOracle) :
    HttpResult × List String :=
  match (files.getD ⟨none, none⟩).coverImage.bind List.head? with
  | none => (.err 501 "Error while uploading the files", [])
  | some _ =>
    match o.coverUpload with
    | .error _ => (.err 501 "Error while uploading the files", [])
    | .ok _ =>
      match (files.getD ⟨none, none⟩).file.bind List.head? with
      | none => (.err 501 "Error while uploading the files", [])
      | some _ =>
        match o.bookUpload with
        | .error _ => (.err 501 "Error while uploading the files", [])
        | .ok _ => (.ok 200 none, [])

/-- Whatever path a `createBook` run takes, any document handed to
`bookModel.insertOne` carries the author produced by the revision's author
expression applied to the request's `userId`. -/
theorem createBookAux_insertedDoc_author (a : Option String → String)
    (req : CreateReq) (o : CreateOracle) (d : BookDoc)
    (hd : (createBookAux a req o).2.insertedDoc = some d) : d.author = a req.userId := by
  obtain ⟨t, g, fs, uid⟩ := req
  obtain ⟨cu, bu, ins, unx⟩ := o
  unfold createBookAux at hd
  repeat' split at hd
  all_goals simp_all
  all_goals exact (congrArg BookDoc.author hd.symm)

/-- C1 (amended): in the part_000 revision of `createBook`, whenever the
authentication middleware attached a caller identity to the request, any
document handed to the book store has that identity as its author; the
author is in particular never taken from the request body. -/
theorem c1_create_author_is_caller (u : String) (req : CreateReq)
    (o : CreateOracle) (d : BookDoc) (hu : req.userId = some u)
    (hd : (createBook req o).2.insertedDoc = some d) : d.author = u := by
  have h := createBookAux_insertedDoc_author
    (fun uid => uid.getD fallbackAuthorId) req o d hd
  rw [hu] at h
  simpa using h

/-- C1 counterexample: in the revision of `createBook` stored at
src/src/book/bookController.ts, a creation request by the authenticated
caller `64aa00000000000000000001` succeeds (201) yet the persisted record's
author is the hardcoded id `693adf9bd0f376cedbc61efd`, which is not the
caller identity. -/
theorem c1_create_author_hardcoded_cx :
    (createBookV1
        ⟨some "Dune", some "Scifi",
          some ⟨some [⟨"c.png", "image/png"⟩], some [⟨"b.pdf", "application/pdf"⟩]⟩,
          some "64aa00000000000000000001"⟩
        ⟨.ok ⟨some "https://cdn/c"⟩, .ok ⟨some "https://cdn/b"⟩,
          .ok ⟨true, some "id1", none⟩, none⟩)
      = (.ok 201 (some "id1"),
         ⟨true, true,
          some ⟨"Dune", "693adf9bd0f376cedbc61efd", "Scifi", "https://cdn/c", "https://cdn/b"⟩,
          ["public/data/uploads/c.png", "public/data/uploads/b.pdf"]⟩)
      ∧ "693adf9bd0f376cedbc61efd" ≠ "64aa00000000000000000001" := by
  exact ⟨by decide, by decide⟩

/-- C1 witness: the amended theorem applied to a concrete successful
creation request carrying caller identity `64aa00000000000000000001`. -/
theorem c1_create_author_is_caller_w :
    (createBook
        ⟨some "Dune", some "Scifi",
          some ⟨some [⟨"c.png", "image/png"⟩], some [⟨"b.pdf", "application/pdf"⟩]⟩,
          some "64aa00000000000000000001"⟩
        ⟨.ok ⟨some "https://cdn/c"⟩, .ok ⟨some "https://cdn/b"⟩,
          .ok ⟨true, some "id1", none⟩, none⟩).2.insertedDoc
      = some ⟨"Dune", "64aa00000000000000000001", "Scifi", "https://cdn/c", "https://cdn/b"⟩
    ∧ BookDoc.author
        ⟨"Dune", "64aa00000000000000000001", "Scifi", "https://cdn/c", "https://cdn/b"⟩
      = "64aa00000000000000000001" := by
  refine ⟨by decide, ?_⟩
  exact c1_create_author_is_caller "64aa00000000000000000001"
    ⟨some "Dune", some "Scifi",
      some ⟨some [⟨"c.png", "image/png"⟩], some [⟨"b.pdf", "application/pdf"⟩]⟩,
      some "64aa00000000000000000001"⟩
    ⟨.ok ⟨some "https://cdn/c"⟩, .ok ⟨some "https://cdn/b"⟩,
      .ok ⟨true, some "id1", none⟩, none⟩
    ⟨"Dune", "64aa00000000000000000001", "Scifi", "https://cdn/c", "https://cdn/b"⟩
    rfl (by decide)

/-- C6: every creation request failing validation (missing or empty title or
genre, missing files map, missing field array, or empty field array) is
rejected with HTTP 400, and neither Cloudinary upload nor the database
insert is called, in both createBook revisions. -/
theorem c6_invalid_create_no_side_effects (a : Option String → String)
    (req : CreateReq) (o : CreateOracle) (h : createValidated req = false) :
    ∃ m, createBookAux a req o = (HttpResult.err 400 m, ⟨false, false, none, []⟩) := by
  obtain ⟨t, g, fs, uid⟩ := req
  by_cases htg : (!(truthy t) || !(truthy g)) = true
  · exact ⟨"Missing required fields: title or genre", by simp [createBookAux, htg]⟩
  · have htg2 : (!(truthy t) || !(truthy g)) = false := by
      simpa using htg
    rcases fs with _ | ⟨ci, fi⟩
    · exact ⟨"Missing uploaded files: coverImage and/or file", by simp [createBookAux, htg2]⟩
    · rcases ci with _ | cl
      · exact ⟨"Missing uploaded files: coverImage and/or file", by simp [createBookAux, htg2]⟩
      · rcases fi with _ | fl
        · exact ⟨"Missing uploaded files: coverImage and/or file", by simp [createBookAux, htg2]⟩
        · rcases hcl : cl.head? with _ | cf
          · exact ⟨"Uploaded files are invalid", by simp [createBookAux, htg2, hcl]⟩
          · rcases hfl : fl.head? with _ | bf
            · exact ⟨"Uploaded files are invalid", by simp [createBookAux, htg2, hcl, hfl]⟩
            · exfalso
              simp [createValidated, hcl, hfl] at h
              simp at htg2
              simp [htg2.1, htg2.2] at h

/-- C6 witness: a creation request with both files but an empty genre is
rejected with 400 and produces no side effect, in the part_000 revision. -/
theorem c6_invalid_create_no_side_effects_w :
    createValidated
        ⟨some "Dune", some "",
          some ⟨some [⟨"c.png", "image/png"⟩], some [⟨"b.pdf", "application/pdf"⟩]⟩,
          some "64aa00000000000000000001"⟩ = false
    ∧ ∃ m,
        createBookAux (fun uid => uid.getD fallbackAuthorId)
          ⟨some "Dune", some "",
            some ⟨some [⟨"c.png", "image/png"⟩], some [⟨"b.pdf", "application/pdf"⟩]⟩,
            some "64aa00000000000000000001"⟩
          ⟨.ok ⟨some "https://cdn/c"⟩, .ok ⟨some "https://cdn/b"⟩,
            .ok ⟨true, some "id1", none⟩, none⟩
        = (HttpResult.err 400 m, ⟨false, false, none, []⟩) := by
  refine ⟨by decide, ?_⟩
  exact c6_invalid_create_no_side_effects _ _ _ (by decide)

/-- C7 (amended): for every creation request that passes validation, deletion
of both temp files is attempted on every exit path — upload failure of either
file, missing secure URL, database failure, unexpected exception, and
success alike — in both full createBook revisions. -/
theorem c7_cleanup_after_validation (a : Option String → String) (t g : String)
    (cf bf : UploadedFile) (l1 l2 : List UploadedFile) (uid : Option String)
    (o : CreateOracle) (ht : t ≠ "") (hg : g ≠ "") :
    (createBookAux a ⟨some t, some g, some ⟨some (cf :: l1), some (bf :: l2)⟩, uid⟩ o).2.unlinked
      = [uploadPath cf.filename, uploadPath bf.filename] := by
  obtain ⟨cu, bu, ins, unx⟩ := o
  have ht3 : truthy (some t) = true := by simp [truthy, ht]
  have hg3 : truthy (some g) = true := by simp [truthy, hg]
  rcases unx with _ | d <;> rcases cu with e | cres <;> rcases bu with e2 | bres <;>
    rcases ins with e3 | ir <;> simp [createBookAux, ht3, hg3]
  all_goals repeat' split
  all_goals rfl

/-- C7 counterexample: a creation request that did receive both uploaded temp
files but lacks a title exits on the validation-failure path with 400, and no
temp-file deletion is attempted (the cleanup list is empty). -/
theorem c7_no_cleanup_on_validation_cx :
    createBookV1
        ⟨none, some "Fantasy",
          some ⟨some [⟨"c.png", "image/png"⟩], some [⟨"b.pdf", "application/pdf"⟩]⟩,
          some "64aa00000000000000000001"⟩
        ⟨.ok ⟨some "https://cdn/c"⟩, .ok ⟨some "https://cdn/b"⟩,
          .ok ⟨true, some "id1", none⟩, none⟩
      = (.err 400 "Missing required fields: title or genre", ⟨false, false, none, []⟩) := by
  decide

/-- C7 witness: the amended theorem applied to a validated request whose
book-file upload fails; both temp-file deletions are still attempted. -/
theorem c7_cleanup_after_validation_w :
    ("Dune" : String) ≠ "" ∧ ("Scifi" : String) ≠ "" ∧
    (createBookAux (fun uid => uid.getD fallbackAuthorId)
        ⟨some "Dune", some "Scifi",
          some ⟨some [⟨"c.png", "image/png"⟩], some [⟨"b.pdf", "application/pdf"⟩]⟩,
          some "64aa00000000000000000001"⟩
        ⟨.ok ⟨some "https://cdn/c"⟩, .error "ETIMEDOUT", .ok ⟨true, some "id1", none⟩,
          none⟩).2.unlinked
      = ["public/data/uploads/c.png", "public/data/uploads/b.pdf"] := by
  refine ⟨by decide, by decide, ?_⟩
  exact c7_cleanup_after_validation _ "Dune" "Scifi" ⟨"c.png", "image/png"⟩
    ⟨"b.pdf", "application/pdf"⟩ [] [] (some "64aa00000000000000000001")
    ⟨.ok ⟨some "https://cdn/c"⟩, .error "ETIMEDOUT", .ok ⟨true, some "id1", none⟩, none⟩
    (by decide) (by decide)

/-- C8 (amended, current revision): an unexpected exception reaching the
catch-all of `createBook` is mapped to HTTP 500 with the fixed message
"Unexpected error while uploading the files" — the same message whatever the
internal exception detail `d` was — and deletion of both temp files is
attempted first. -/
theorem c8_catchall_cleanup_and_500 (a : Option String → String) (t g : String)
    (cf bf : UploadedFile) (l1 l2 : List UploadedFile) (uid : Option String)
    (o : CreateOracle) (d : String) (ht : t ≠ "") (hg : g ≠ "")
    (hx : o.unexpected = some d) :
    createBookAux a ⟨some t, some g, some ⟨some (cf :: l1), some (bf :: l2)⟩, uid⟩ o
      = (.err 500 "Unexpected error while uploading the files",
         ⟨false, false, none, [uploadPath cf.filename, uploadPath bf.filename]⟩) := by
  have ht2 : (t == "") = false := by simp [ht]
  have hg2 : (g == "") = false := by simp [hg]
  simp [createBookAux, truthy, ht2, hg2, hx]

/-- C8 counterexample: in the prototype revision of `createBook`
(src/unnamed/part_001), an exception raised by the cover upload is caught and
mapped to HTTP 501 — not 500 — and no temp-file deletion is attempted. -/
theorem c8_proto_501_no_cleanup_cx :
    createBookProto
        (some ⟨some [⟨"c.png", "image/png"⟩], some [⟨"b.pdf", "application/pdf"⟩]⟩)
        ⟨.error "ECONNRESET: socket hang up", .ok ⟨some "https://cdn/b"⟩⟩
      = (.err 501 "Error while uploading the files", []) ∧ (501 : Nat) ≠ 500 := by
  exact ⟨by decide, by decide⟩

/-- C8 witness: the amended theorem applied to a concrete request with an
unexpected exception carrying internal detail. -/
theorem c8_catchall_cleanup_and_500_w :
    createBookAux (fun uid => uid.getD fallbackAuthorId)
        ⟨some "Dune", some "Scifi",
          some ⟨some [⟨"c.png", "image/png"⟩], some [⟨"b.pdf", "application/pdf"⟩]⟩,
          some "64aa00000000000000000001"⟩
        ⟨.ok ⟨some "https://cdn/c"⟩, .ok ⟨some "https://cdn/b"⟩,
          .ok ⟨true, some "id1", none⟩, some "TypeError: x is not a function"⟩
      = (.err 500 "Unexpected error while uploading the files",
         ⟨false, false, none, ["public/data/uploads/c.png", "public/data/uploads/b.pdf"]⟩) := by
  exact c8_catchall_cleanup_and_500 _ "Dune" "Scifi" ⟨"c.png", "image/png"⟩
    ⟨"b.pdf", "application/pdf"⟩ [] [] (some "64aa00000000000000000001")
    ⟨.ok ⟨some "https://cdn/c"⟩, .ok ⟨some "https://cdn/b"⟩,
      .ok ⟨true, some "id1", none⟩, some "TypeError: x is not a function"⟩
    "TypeError: x is not a function" (by decide) (by decide) rfl

/-- C4: for every validated creation request in which either Cloudinary call
fails, or either upload yields no truthy secure URL, the workflow fails with
HTTP 502, no document is handed to the store, and deletion of both temp
files is attempted — in both full createBook revisions. -/
theorem c4_upload_failure_no_persist (a : Option String → String) (t g : String)
    (cf bf : UploadedFile) (l1 l2 : List UploadedFile) (uid : Option String)
    (o : CreateOracle) (ht : t ≠ "") (hg : g ≠ "")
    (hx : o.unexpected = none) (hf : uploadFailed o = true) :
    (∃ m, (createBookAux a ⟨some t, some g, some ⟨some (cf :: l1), some (bf :: l2)⟩, uid⟩ o).1
        = HttpResult.err 502 m)
    ∧ (createBookAux a ⟨some t, some g, some ⟨some (cf :: l1), some (bf :: l2)⟩, uid⟩ o).2.insertedDoc
        = none
    ∧ (createBookAux a ⟨some t, some g, some ⟨some (cf :: l1), some (bf :: l2)⟩, uid⟩ o).2.unlinked
        = [uploadPath cf.filename, uploadPath bf.filename] := by
  obtain ⟨cu, bu, ins, unx⟩ := o
  have ht3 : truthy (some t) = true := by simp [truthy, ht]
  have hg3 : truthy (some g) = true := by simp [truthy, hg]
  simp only at hx
  subst hx
  rcases cu with e | cres
  · exact ⟨⟨"Failed to upload cover image to Cloudinary",
      by simp [createBookAux, ht3, hg3]⟩,
      by simp [createBookAux, ht3, hg3],
      by simp [createBookAux, ht3, hg3]⟩
  · rcases bu with e2 | bres
    · exact ⟨⟨"Failed to upload book file to Cloudinary",
        by simp [createBookAux, ht3, hg3]⟩,
        by simp [createBookAux, ht3, hg3],
        by simp [createBookAux, ht3, hg3]⟩
    · have hurl : truthy cres.secure_url = false ∨ truthy bres.secure_url = false := by
        have hf2 := hf
        simp [uploadFailed] at hf2
        exact hf2
      rcases hurl with hc | hc <;>
        exact ⟨⟨"Cloudinary upload did not return a secure URL",
          by simp [createBookAux, ht3, hg3, hc]⟩,
          by simp [createBookAux, ht3, hg3, hc],
          by simp [createBookAux, ht3, hg3, hc]⟩

/-- C4 witness: the theorem applied to a validated request whose cover upload
returns no secure URL. -/
theorem c4_upload_failure_no_persist_w :
    uploadFailed ⟨.ok ⟨none⟩, .ok ⟨some "https://cdn/b"⟩, .ok ⟨true, some "id1", none⟩, none⟩
        = true
    ∧ (∃ m, (createBookAux (fun uid => uid.getD fallbackAuthorId)
        ⟨some "Dune", some "Scifi",
          some ⟨some [⟨"c.png", "image/png"⟩], some [⟨"b.pdf", "application/pdf"⟩]⟩,
          some "64aa00000000000000000001"⟩
        ⟨.ok ⟨none⟩, .ok ⟨some "https://cdn/b"⟩, .ok ⟨true, some "id1", none⟩, none⟩).1
          = HttpResult.err 502 m)
    ∧ (createBookAux (fun uid => uid.getD fallbackAuthorId)
        ⟨some "Dune", some "Scifi",
          some ⟨some [⟨"c.png", "image/png"⟩], some [⟨"b.pdf", "application/pdf"⟩]⟩,
          some "64aa00000000000000000001"⟩
        ⟨.ok ⟨none⟩, .ok ⟨some "https://cdn/b"⟩, .ok ⟨true, some "id1", none⟩, none⟩).2.insertedDoc
          = none
    ∧ (createBookAux (fun uid => uid.getD fallbackAuthorId)
        ⟨some "Dune", some "Scifi",
          some ⟨some [⟨"c.png", "image/png"⟩], some [⟨"b.pdf", "application/pdf"⟩]⟩,
          some "64aa00000000000000000001"⟩
        ⟨.ok ⟨none⟩, .ok ⟨some "https://cdn/b"⟩, .ok ⟨true, some "id1", none⟩, none⟩).2.unlinked
          = ["public/data/uploads/c.png", "public/data/uploads/b.pdf"] := by
  refine ⟨by decide, ?_⟩
  exact c4_upload_failure_no_persist _ "Dune" "Scifi" ⟨"c.png", "image/png"⟩
    ⟨"b.pdf", "application/pdf"⟩ [] [] (some "64aa00000000000000000001")
    ⟨.ok ⟨none⟩, .ok ⟨some "https://cdn/b"⟩, .ok ⟨true, some "id1", none⟩, none⟩
    (by decide) (by decide) rfl (by decide)

/-- Whatever the `findOneAndUpdate` outcome, the payload handed to the store
by `updateFinish` selects each field exactly as lines 265-270 do. -/
theorem updateFinish_updateCalled (req : UpdateReq) (o : UpdateOracle)
    (book : StoredBook) (cc bc : Bool) (cu bu : String) (paths : List String) :
    (updateFinish req o book cc bc cu bu paths).2.updateCalled =
      some ⟨req.title.getD book.title, req.genre.getD book.genre,
        if cu != "" then cu else book.coverImage,
        if bu != "" then bu else book.file⟩ := by
  unfold updateFinish
  rcases o.findOneAndUpdate with e | r
  · rfl
  · rcases r with _ | ud <;> rfl

/-- A non-owner update request is rejected with 403 and produces no effect at
all: no upload, no store call, no deletion attempt. -/
theorem updateBook_nonowner_eq (rt rg : Option String) (bid : String)
    (rf : Option FilesMap) (u : String) (o : UpdateOracle) (book : StoredBook)
    (hb : bid ≠ "") (hu : u ≠ "") (hfind : o.findOne = .ok (some book))
    (hown : normalizeAuthor book.author ≠ u) :
    updateBook ⟨rt, rg, some bid, rf, some u⟩ o
      = (.err 403 "Unauthorized access", ⟨false, false, none, []⟩) := by
  have hb3 : truthy (some bid) = true := by simp [truthy, hb]
  have hu3 : truthy (some u) = true := by simp [truthy, hu]
  have hown2 : (normalizeAuthor book.author != u) = true := by simp [hown]
  simp [updateBook, hb3, hu3, hfind, hown2]

/-- An owner update request never produces the 403 ownership rejection,
whatever the upload and store outcomes. -/
theorem updateBook_owner_not403 (rt rg : Option String) (bid : String)
    (rf : Option FilesMap) (u : String) (o : UpdateOracle) (book : StoredBook)
    (hb : bid ≠ "") (hu : u ≠ "") (hfind : o.findOne = .ok (some book))
    (hown : normalizeAuthor book.author = u) :
    (updateBook ⟨rt, rg, some bid, rf, some u⟩ o).1 ≠ .err 403 "Unauthorized access" := by
  have hb3 : truthy (some bid) = true := by simp [truthy, hb]
  have hu3 : truthy (some u) = true := by simp [truthy, hu]
  have hown2 : (normalizeAuthor book.author != u) = false := by simp [hown]
  rcases hcif : ((rf.getD ⟨none, none⟩).coverImage.bind List.head?) with _ | cf <;>
    rcases hfif : ((rf.getD ⟨none, none⟩).file.bind List.head?) with _ | bf <;>
      rcases hcv : o.coverUpload with e1 | cr <;>
        rcases hbk : o.bookUpload with e2 | br <;>
          rcases hfu : o.findOneAndUpdate with e3 | (_ | ud) <;>
            simp [updateBook, updateBookFileBranch, updateFinish, hb3, hu3, hfind, hown2,
              hcif, hfif, hcv, hbk, hfu]

/-- C2: an update request whose authenticated caller differs from the stored
record's (normalized) author reference is rejected with HTTP 403, with no
Cloudinary upload, no store mutation, and no temp-file deletion. -/
theorem c2_nonowner_403_no_mutation (rt rg : Option String) (bid : String)
    (rf : Option FilesMap) (u : String) (o : UpdateOracle) (book : StoredBook)
    (hb : bid ≠ "") (hu : u ≠ "") (hfind : o.findOne = .ok (some book))
    (hown : normalizeAuthor book.author ≠ u) :
    updateBook ⟨rt, rg, some bid, rf, some u⟩ o
      = (.err 403 "Unauthorized access", ⟨false, false, none, []⟩) :=
  updateBook_nonowner_eq rt rg bid rf u o book hb hu hfind hown

/-- C2 witness: a concrete non-owner update request with replacement files is
rejected with 403 before any upload or store call. -/
theorem c2_nonowner_403_no_mutation_w :
    updateBook
        ⟨some "T2", none, some "bid1",
          some ⟨some [⟨"c2.png", "image/png"⟩], some [⟨"b2.pdf", "application/pdf"⟩]⟩,
          some "userB"⟩
        ⟨.ok (some ⟨"Dune", "Scifi", "https://cdn/cov", "https://cdn/fil", .str "userA"⟩),
          .ok ⟨some "https://cdn/c2"⟩, .ok ⟨some "https://cdn/b2"⟩,
          .ok (some ⟨some "bid1", none⟩)⟩
      = (.err 403 "Unauthorized access", ⟨false, false, none, []⟩) := by
  exact c2_nonowner_403_no_mutation (some "T2") none "bid1"
    (some ⟨some [⟨"c2.png", "image/png"⟩], some [⟨"b2.pdf", "application/pdf"⟩]⟩)
    "userB" _ ⟨"Dune", "Scifi", "https://cdn/cov", "https://cdn/fil", .str "userA"⟩
    (by decide) (by decide) rfl (by decide)

/-- C3 (amended): the payload handed to the store by an owner update gives
title and genre the supplied body value whenever one is present — including
the empty string, which does overwrite — and gives coverImage and file the
freshly uploaded URL only when a file was supplied and the upload produced a
non-empty URL, otherwise the stored value. -/
theorem c3_update_payload_fields (rt rg : Option String) (bid : String)
    (rf : Option FilesMap) (u : String) (o : UpdateOracle) (book : StoredBook)
    (cr br : UploadResult) (p : UpdatePayload)
    (hb : bid ≠ "") (hu : u ≠ "") (hfind : o.findOne = .ok (some book))
    (hcu : o.coverUpload = .ok cr) (hbu : o.bookUpload = .ok br)
    (hp : (updateBook ⟨rt, rg, some bid, rf, some u⟩ o).2.updateCalled = some p) :
    p.title = rt.getD book.title ∧ p.genre = rg.getD book.genre ∧
    p.coverImage = (if ((rf.getD ⟨none, none⟩).coverImage.bind List.head?).isSome
        && (cr.secure_url.getD "" != "") then cr.secure_url.getD "" else book.coverImage) ∧
    p.file = (if ((rf.getD ⟨none, none⟩).file.bind List.head?).isSome
        && (br.secure_url.getD "" != "") then br.secure_url.getD "" else book.file) := by
  have hb3 : truthy (some bid) = true := by simp [truthy, hb]
  have hu3 : truthy (some u) = true := by simp [truthy, hu]
  by_cases hown : normalizeAuthor book.author = u
  · have hown2 : (normalizeAuthor book.author != u) = false := by simp [hown]
    rcases hcif : ((rf.getD ⟨none, none⟩).coverImage.bind List.head?) with _ | cf <;>
      rcases hfif : ((rf.getD ⟨none, none⟩).file.bind List.head?) with _ | bf <;>
        simp [updateBook, updateBookFileBranch, hb3, hu3, hfind, hown2, hcu, hbu,
          hcif, hfif, updateFinish_updateCalled] at hp <;>
          subst hp <;> simp [hcif, hfif]
  · have h403 := updateBook_nonowner_eq rt rg bid rf u o book hb hu hfind hown
    rw [h403] at hp
    simp at hp

/-- C3 counterexample: an owner update that supplies an empty title while the
stored title is "Dune" hands the store a payload whose title is the empty
string — a field overwritten with an empty value. -/
theorem c3_empty_title_overwrite_cx :
    (updateBook ⟨some "", none, some "bid1", none, some "userA"⟩
        ⟨.ok (some ⟨"Dune", "Scifi", "https://cdn/cov", "https://cdn/fil", .str "userA"⟩),
          .ok ⟨some "x"⟩, .ok ⟨some "y"⟩, .ok (some ⟨some "bid1", none⟩)⟩).2.updateCalled
      = some ⟨"", "Scifi", "https://cdn/cov", "https://cdn/fil"⟩
    ∧ ("" : String) ≠ "Dune" := by
  exact ⟨by decide, by decide⟩

/-- C3 witness: the amended theorem applied to an owner update replacing only
the cover image; title and genre keep stored values, coverImage takes the new
URL, file keeps the stored URL. -/
theorem c3_update_payload_fields_w :
    (updateBook ⟨none, none, some "bid1",
        some ⟨some [⟨"c2.png", "image/png"⟩], none⟩, some "userA"⟩
        ⟨.ok (some ⟨"Dune", "Scifi", "https://cdn/cov", "https://cdn/fil", .str "userA"⟩),
          .ok ⟨some "https://cdn/c2"⟩, .ok ⟨some "https://cdn/b2"⟩,
          .ok (some ⟨some "bid1", none⟩)⟩).2.updateCalled
      = some ⟨"Dune", "Scifi", "https://cdn/c2", "https://cdn/fil"⟩
    ∧ UpdatePayload.title ⟨"Dune", "Scifi", "https://cdn/c2", "https://cdn/fil"⟩
        = Option.getD none "Dune"
    ∧ UpdatePayload.coverImage ⟨"Dune", "Scifi", "https://cdn/c2", "https://cdn/fil"⟩
        = "https://cdn/c2" := by
  refine ⟨by decide, ?_, ?_⟩
  · exact (c3_update_payload_fields none none "bid1"
      (some ⟨some [⟨"c2.png", "image/png"⟩], none⟩) "userA"
      ⟨.ok (some ⟨"Dune", "Scifi", "https://cdn/cov", "https://cdn/fil", .str "userA"⟩),
        .ok ⟨some "https://cdn/c2"⟩, .ok ⟨some "https://cdn/b2"⟩,
        .ok (some ⟨some "bid1", none⟩)⟩
      ⟨"Dune", "Scifi", "https://cdn/cov", "https://cdn/fil", .str "userA"⟩
      ⟨some "https://cdn/c2"⟩ ⟨some "https://cdn/b2"⟩
      ⟨"Dune", "Scifi", "https://cdn/c2", "https://cdn/fil"⟩
      (by decide) (by decide) rfl rfl rfl (by decide)).1
  · have h := (c3_update_payload_fields none none "bid1"
      (some ⟨some [⟨"c2.png", "image/png"⟩], none⟩) "userA"
      ⟨.ok (some ⟨"Dune", "Scifi", "https://cdn/cov", "https://cdn/fil", .str "userA"⟩),
        .ok ⟨some "https://cdn/c2"⟩, .ok ⟨some "https://cdn/b2"⟩,
        .ok (some ⟨some "bid1", none⟩)⟩
      ⟨"Dune", "Scifi", "https://cdn/cov", "https://cdn/fil", .str "userA"⟩
      ⟨some "https://cdn/c2"⟩ ⟨some "https://cdn/b2"⟩
      ⟨"Dune", "Scifi", "https://cdn/c2", "https://cdn/fil"⟩
      (by decide) (by decide) rfl rfl rfl (by decide)).2.2.1
    exact h

/-- C10: before the ownership comparison the stored author reference is
normalized to a string — used directly when it is already a string, otherwise
taken from the `toString` of its nested `_id` when present, or of the value
itself — and the update workflow rejects with 403 exactly when this
normalized string differs from the caller identity. -/
theorem c10_ownership_uses_normalized_author (s i ts ts2 : String)
    (rt rg : Option String) (bid : String) (rf : Option FilesMap) (u : String)
    (o : UpdateOracle) (book : StoredBook)
    (hb : bid ≠ "") (hu : u ≠ "") (hfind : o.findOne = .ok (some book)) :
    normalizeAuthor (.str s) = s ∧ normalizeAuthor (.obj (some i) ts) = i ∧
    normalizeAuthor (.obj none ts2) = ts2 ∧
    ((updateBook ⟨rt, rg, some bid, rf, some u⟩ o).1 = .err 403 "Unauthorized access" ↔
      normalizeAuthor book.author ≠ u) := by
  refine ⟨rfl, rfl, rfl, ?_, ?_⟩
  · intro h403
    by_contra hown
    exact updateBook_owner_not403 rt rg bid rf u o book hb hu hfind hown h403
  · intro hown
    rw [updateBook_nonowner_eq rt rg bid rf u o book hb hu hfind hown]

/-- C10 witness: the theorem applied to a stored book whose author is a
populated reference object with nested id `userA`, fetched by an update
request from caller `userB`; the 403 comparison sees the normalized string. -/
theorem c10_ownership_uses_normalized_author_w :
    normalizeAuthor (.str "userA") = "userA"
    ∧ normalizeAuthor (.obj (some "userA") "[object Object]") = "userA"
    ∧ normalizeAuthor (.obj none "someOid") = "someOid"
    ∧ ((updateBook ⟨some "T2", none, some "bid1", none, some "userB"⟩
        ⟨.ok (some ⟨"Dune", "Scifi", "https://cdn/cov", "https://cdn/fil",
            .obj (some "userA") "[object Object]"⟩),
          .ok ⟨some "x"⟩, .ok ⟨some "y"⟩, .ok (some ⟨some "bid1", none⟩)⟩).1
        = .err 403 "Unauthorized access" ↔
      normalizeAuthor (.obj (some "userA") "[object Object]") ≠ "userB") := by
  exact c10_ownership_uses_normalized_author "userA" "userA" "[object Object]" "someOid"
    (some "T2") none "bid1" none "userB"
    ⟨.ok (some ⟨"Dune", "Scifi", "https://cdn/cov", "https://cdn/fil",
        .obj (some "userA") "[object Object]"⟩),
      .ok ⟨some "x"⟩, .ok ⟨some "y"⟩, .ok (some ⟨some "bid1", none⟩)⟩
    ⟨"Dune", "Scifi", "https://cdn/cov", "https://cdn/fil",
      .obj (some "userA") "[object Object]"⟩
    (by decide) (by decide) rfl

/-- C5 (amended): fetching a book whose identifier matches no stored record
fails with HTTP 401 and the message "Book does not exist" — the handler maps
the not-found condition to 401, not 404. -/
theorem c5_missing_book_fetch_401 (bid : String) (hb : bid ≠ "") :
    getsingleBook (some bid) (.ok none) = .err 401 "Book does not exist" := by
  have hb3 : truthy (some bid) = true := by simp [truthy, hb]
  simp [getsingleBook, hb3]

/-- C5 counterexample: fetching the nonexistent identifier `deadbeef` yields
HTTP 401, and 401 is not the claimed 404. -/
theorem c5_missing_book_fetch_404_cx :
    getsingleBook (some "deadbeef") (.ok none) = .err 401 "Book does not exist"
    ∧ (401 : Nat) ≠ 404 := by
  exact ⟨by decide, by decide⟩

/-- C5 witness: the amended theorem applied to the identifier `bid9`. -/
theorem c5_missing_book_fetch_401_w :
    ("bid9" : String) ≠ ""
    ∧ getsingleBook (some "bid9") (.ok none) = .err 401 "Book does not exist" := by
  exact ⟨by decide, c5_missing_book_fetch_401 "bid9" (by decide)⟩

/-- A list of length two whose first entry is "Bearer" is exactly
`["Bearer", second]`. -/
theorem length_two_bearer (l : List String) (h1 : l.length = 2)
    (h2 : l.getD 0 "" = "Bearer") : l = ["Bearer", l.getD 1 ""] := by
  rcases l with _ | ⟨a, _ | ⟨b, _ | ⟨c, rest⟩⟩⟩
  · simp at h1
  · simp at h1
  · simp [List.getD] at h2 ⊢
    exact h2
  · simp only [List.length_cons] at h1
    omega

/-- C9: the authenticate middleware lets the downstream handler run, with the
token's `sub` attached as the request's `userId`, exactly when the
Authorization header splits on spaces into `["Bearer", token]` and the token
verifies to a payload with a non-empty `sub`; every rejection it issues
carries HTTP status 401. -/
theorem c9_authenticate_gate (header : Option String)
    (verify : String → Except String JwtPayload) (u : String) :
    (authenticate header verify = .proceed u ↔
      ∃ h t p, header = some h ∧ jsSplit ' ' h = ["Bearer", t] ∧
        verify t = .ok p ∧ p.sub = some u ∧ u ≠ "") ∧
    ∀ s m, authenticate header verify = .authErr s m → s = 401 := by
  constructor
  · constructor
    · intro hp
      rcases header with _ | h
      · simp [authenticate] at hp
      · simp only [authenticate] at hp
        split at hp
        · exact absurd hp (by simp)
        · rename_i hcondn
          have hcond2 :
              ((jsSplit ' ' h).length != 2 || (jsSplit ' ' h).getD 0 "" != "Bearer")
                = false := by
            simpa using hcondn
          simp only [Bool.or_eq_false_iff, bne_eq_false_iff_eq] at hcond2
          obtain ⟨hlen, hbear⟩ := hcond2
          split at hp
          · exact absurd hp (by simp)
          · rename_i p hveq
            split at hp
            · exact absurd hp (by simp)
            · rename_i htsub
              have hts : truthy p.sub = true := by
                simpa using htsub
              have hpp : p.sub.getD "" = u := by
                simpa only [AuthResult.proceed.injEq] using hp
              rcases hsub : p.sub with _ | s
              · rw [hsub] at hts
                simp [truthy] at hts
              · have hs : s ≠ "" := by
                  intro heq
                  rw [hsub, heq] at hts
                  simp [truthy] at hts
                rw [hsub] at hpp
                simp only [Option.getD_some] at hpp
                refine ⟨h, (jsSplit ' ' h).getD 1 "", p, rfl,
                  length_two_bearer _ hlen hbear, hveq, ?_, ?_⟩
                · rw [hsub, hpp]
                · rw [← hpp]
                  exact hs
    · rintro ⟨h, t, p, rfl, hsplit, hv, hsub, hne⟩
      have hne2 : (u == "") = false := by simp [hne]
      simp [authenticate, hsplit, hv, hsub, truthy, hne2]
  · intro s m he
    rcases header with _ | h
    · simp only [authenticate] at he
      injection he with h1 h2
      exact h1.symm
    · simp only [authenticate] at he
      split at he
      · injection he with h1 h2
        exact h1.symm
      · split at he
        · injection he with h1 h2
          exact h1.symm
        · split at he
          · injection he with h1 h2
            exact h1.symm
          · exact absurd he (by simp)

/-- C9 witness: a well-formed bearer header whose token verifies with
subject `user1` makes the middleware proceed with `userId = "user1"`. -/
theorem c9_authenticate_gate_w :
    authenticate (some "Bearer tok0") (fun _ => .ok ⟨some "user1"⟩)
      = .proceed "user1" := by
  exact (c9_authenticate_gate (some "Bearer tok0") (fun _ => .ok ⟨some "user1"⟩)
    "user1").1.mpr
    ⟨"Bearer tok0", "tok0", ⟨some "user1"⟩, rfl, by decide, rfl, rfl, by decide⟩

end Elib
